import Mathlib

/-!
Verification of the two calculator scripts of the repository
`agile-vs-waterfall` (files `agile_calculator.py` and
`waterfall_calculator.py`), as a shallow embedding in Lean.

Python floats are modelled by exact rationals (ℚ) together with a
distinguished positive-infinity value, which is the only non-finite value
the scripts can produce (via `float("inf")` in the safe-division branch).
Python exceptions are modelled by `Except` results carrying an error
inductive; the Python exception class of each error is recorded by
`AgileError.pythonClass`.  The global `FEATURES` dictionary is modelled as
a value of the structure `Features`; since Python code may read the global
table at different moments, every function that reads it in the source
takes the table it reads as an explicit argument (`AgileCalculator.init`
takes the table as seen at construction time, `run` and `get_history`
take the table as seen at the moment of the call).  The CLI front-ends
are parameterised by an abstract parser `parse : String → Option ℚ`
standing for Python's `float(·)` conversion, which raises (here: `none`)
on malformed literals.
-/

/-- A Python float value produced by the calculators: either a finite
number (modelled exactly as a rational) or positive infinity, the value
`float("inf")` returned by safe division. -/
inductive PyFloat where
  | fin (q : ℚ)
  | inf
deriving DecidableEq, Repr

/-- The feature-toggle table of `agile_calculator.py` (`FEATURES`):
one boolean per operation plus the `history` flag. -/
structure Features where
  add : Bool
  subtract : Bool
  multiply : Bool
  divide : Bool
  history : Bool
deriving DecidableEq, Repr

/-- The module-level `FEATURES` dictionary as written in the source:
the four operations are ON, `history` is OFF. -/
def FEATURES : Features :=
  { add := true, subtract := true, multiply := true, divide := true, history := false }

/-- The lambda registered for `"add"`: `lambda a, b: a + b`. -/
def addFn (a b : ℚ) : PyFloat := .fin (a + b)

/-- The lambda registered for `"subtract"`: `lambda a, b: a - b`. -/
def subFn (a b : ℚ) : PyFloat := .fin (a - b)

/-- The lambda registered for `"multiply"`: `lambda a, b: a * b`. -/
def mulFn (a b : ℚ) : PyFloat := .fin (a * b)

/-- The lambda registered for `"divide"`:
`lambda a, b: a / b if b != 0 else float("inf")`. -/
def divFn (a b : ℚ) : PyFloat := if b ≠ 0 then .fin (a / b) else .inf

/-- One entry of the instance history list: the tuple
`(op, a, b, result)` appended by `run`. -/
abbrev HistEntry := String × ℚ × ℚ × PyFloat

/-- The errors `AgileCalculator` can raise: `ValueError` for a feature
absent from the registry (carrying the operation name), `RuntimeError`
for `get_history` while the history flag is off. -/
inductive AgileError where
  | featureUnavailable (op : String)
  | historyDisabled
deriving DecidableEq, Repr

/-- The Python exception class of each `AgileError`. -/
def AgileError.pythonClass : AgileError → String
  | .featureUnavailable _ => "ValueError"
  | .historyDisabled => "RuntimeError"

/-- The state of an `AgileCalculator` instance: the operation registry
`self.ops` (an association list from operation name to a binary
function, built once in `__init__`) and the history list `self.history`. -/
structure AgileCalculator where
  ops : List (String × (ℚ → ℚ → PyFloat))
  history : List HistEntry

/-- Lookup in the operation registry, modelling both the membership test
`op not in self.ops` and the access `self.ops[op]` (the keys inserted by
`__init__` are pairwise distinct, so association-list lookup agrees with
the Python dict). -/
def lookupOp : List (String × (ℚ → ℚ → PyFloat)) → String → Option (ℚ → ℚ → PyFloat)
  | [], _ => none
  | (k, v) :: rest, op => if op = k then some v else lookupOp rest op

/-- `AgileCalculator.__init__`, reading the feature table `f` as it
stands at construction time: `self.history = []`, and each of the four
operations is registered exactly when its flag is true. -/
def AgileCalculator.init (f : Features) : AgileCalculator :=
  { ops :=
      (if f.add then [("add", addFn)] else [])
        ++ (if f.subtract then [("subtract", subFn)] else [])
        ++ (if f.multiply then [("multiply", mulFn)] else [])
        ++ (if f.divide then [("divide", divFn)] else [])
    history := [] }

/-- `AgileCalculator.run(op, a, b)`.  `flagsNow` is the global `FEATURES`
table as it stands at the moment of the call (the method re-reads
`FEATURES.get("history")` on every call).  Returns the raised error or
the result, together with the instance state after the call: on an
unknown operation the state is unchanged; on success the tuple
`(op, a, b, result)` is appended to `self.history` exactly when the
history flag is true now. -/
def AgileCalculator.run (c : AgileCalculator) (flagsNow : Features) (op : String)
    (a b : ℚ) : Except AgileError PyFloat × AgileCalculator :=
  match lookupOp c.ops op with
  | none => (.error (.featureUnavailable op), c)
  | some f =>
      let result := f a b
      (.ok result,
        if flagsNow.history then
          { c with history := c.history ++ [(op, a, b, result)] }
        else c)

/-- `AgileCalculator.get_history()`: raises `RuntimeError` when the
history flag is off in the table as read now, otherwise returns (a copy
of) the history list. -/
def AgileCalculator.get_history (c : AgileCalculator) (flagsNow : Features) :
    Except AgileError (List HistEntry) :=
  if flagsNow.history then .ok c.history else .error .historyDisabled

/-- `true` on an `Except.ok`, `false` on an `Except.error`: the call
succeeded rather than raised. -/
def exceptOk {ε α : Type} : Except ε α → Bool
  | .ok _ => true
  | .error _ => false

/-- Registry lookup for `"add"` is decided by the `add` flag at
construction time alone. -/
theorem lookup_init_add (f : Features) :
    lookupOp (AgileCalculator.init f).ops "add" = if f.add then some addFn else none := by
  obtain ⟨fa, fs, fm, fd, fh⟩ := f
  cases fa <;> cases fs <;> cases fm <;> cases fd <;>
    simp [AgileCalculator.init, lookupOp]

/-- Registry lookup for `"subtract"` is decided by the `subtract` flag at
construction time alone. -/
theorem lookup_init_subtract (f : Features) :
    lookupOp (AgileCalculator.init f).ops "subtract" =
      if f.subtract then some subFn else none := by
  obtain ⟨fa, fs, fm, fd, fh⟩ := f
  cases fa <;> cases fs <;> cases fm <;> cases fd <;>
    simp [AgileCalculator.init, lookupOp]

/-- Registry lookup for `"multiply"` is decided by the `multiply` flag at
construction time alone. -/
theorem lookup_init_multiply (f : Features) :
    lookupOp (AgileCalculator.init f).ops "multiply" =
      if f.multiply then some mulFn else none := by
  obtain ⟨fa, fs, fm, fd, fh⟩ := f
  cases fa <;> cases fs <;> cases fm <;> cases fd <;>
    simp [AgileCalculator.init, lookupOp]

/-- Registry lookup for `"divide"` is decided by the `divide` flag at
construction time alone. -/
theorem lookup_init_divide (f : Features) :
    lookupOp (AgileCalculator.init f).ops "divide" =
      if f.divide then some divFn else none := by
  obtain ⟨fa, fs, fm, fd, fh⟩ := f
  cases fa <;> cases fs <;> cases fm <;> cases fd <;>
    simp [AgileCalculator.init, lookupOp]

/-- What the toggleable CLI prints on a given invocation (abstracting
the exact text): the usage doc-string, the backlog listing, the feature
listing, a numeric result, or the friendly
`Not available yet: ...` message for a caught `ValueError` (carrying the
operation name of the error). -/
inductive AgileOut where
  | usage
  | backlogOut
  | featuresOut
  | resultOut (v : PyFloat)
  | notAvailable (op : String)
deriving DecidableEq, Repr

/-- Process outcome of `run_cli` in `agile_calculator.py`: either the
function returns normally after printing (the process then exits with
code 0), or an exception escapes `run_cli` (the `float(·)` conversion of
an operand failing, which is outside the `try` block) and the process
dies with a traceback and a non-zero exit code. -/
inductive AgileCliResult where
  | printed (out : AgileOut)
  | uncaught
deriving DecidableEq, Repr

/-- `run_cli()` of `agile_calculator.py` on argument list `args`
(`sys.argv[1:]`): empty → usage; first argument `backlog` or `features`
→ the listing (whatever the argument count); exactly three arguments →
convert both operands with `float` (an unparseable operand raises an
uncaught `ValueError` here, before the `try` block), build a fresh
`AgileCalculator`, run the operation catching only `ValueError`;
any other argument count → usage. -/
def agile_run_cli (parse : String → Option ℚ) (args : List String) : AgileCliResult :=
  match args with
  | [] => .printed .usage
  | a0 :: rest =>
      if a0 = "backlog" then .printed .backlogOut
      else if a0 = "features" then .printed .featuresOut
      else
        match rest with
        | [aStr, bStr] =>
            match parse aStr, parse bStr with
            | some a, some b =>
                match ((AgileCalculator.init FEATURES).run FEATURES a0 a b).1 with
                | .ok r => .printed (.resultOut r)
                | .error (.featureUnavailable o) => .printed (.notAvailable o)
                | .error .historyDisabled => .uncaught
            | _, _ => .uncaught
        | _ => .printed .usage

/-- The `Calculator` class of `waterfall_calculator.py` (stateless). -/
structure Calculator where

/-- `Calculator.add(a, b)`: `return a + b`. -/
def Calculator.add (_c : Calculator) (a b : ℚ) : ℚ := a + b

/-- `Calculator.subtract(a, b)`: `return a - b`. -/
def Calculator.subtract (_c : Calculator) (a b : ℚ) : ℚ := a - b

/-- The module-level instance `calc = Calculator()` (`calc` is a Lean
keyword, hence the name `calcObj`). -/
def calcObj : Calculator := {}

/-- What the fixed CLI prints: the usage line, a numeric result, or the
scope-rejection message. -/
inductive WfOut where
  | usage
  | resultOut (q : ℚ)
  | rejection
deriving DecidableEq, Repr

/-- Process outcome of `run_cli` in `waterfall_calculator.py`: a normal
exit with an explicit code (0 implicit on the success path, 1 via
`sys.exit(1)`, 2 via `sys.exit(2)`) and the printed output, or death by
an uncaught exception from the `float(·)` conversions. -/
inductive WfCliResult where
  | exited (code : Nat) (out : WfOut)
  | uncaught
deriving DecidableEq, Repr

/-- `run_cli()` of `waterfall_calculator.py` on the full `sys.argv`
(program name included): `len(sys.argv) != 4` → usage and `sys.exit(1)`;
otherwise both operands are converted with `float` BEFORE the operation
name is examined (an unparseable operand kills the process); then
`add`/`subtract` compute and print, anything else prints the rejection
and `sys.exit(2)`. -/
def waterfall_run_cli (parse : String → Option ℚ) (argv : List String) : WfCliResult :=
  match argv with
  | [_, op, aStr, bStr] =>
      match parse aStr, parse bStr with
      | some a, some b =>
          if op = "add" then .exited 0 (.resultOut (calcObj.add a b))
          else if op = "subtract" then .exited 0 (.resultOut (calcObj.subtract a b))
          else .exited 2 .rejection
      | _, _ => .uncaught
  | _ => .exited 1 .usage

/-- One assertion of `_tests` in `agile_calculator.py`:
`abs(calc.run(op, a, b) - target) < 1e-9`, false as well when the call
raised or returned infinity. -/
def approxCheck (r : Except AgileError PyFloat) (target : ℚ) : Bool :=
  match r with
  | .ok (.fin q) => decide (|q - target| < 1 / 1000000000)
  | _ => false

/-- The `_tests()` suite of `agile_calculator.py`, run against the
`FEATURES` table of the source: a fresh calculator, the four arithmetic
assertions, and the check that `get_history()` raises `RuntimeError`.
`true` iff every assertion holds (and no unexpected exception escapes). -/
def agile_tests : Bool :=
  let c0 := AgileCalculator.init FEATURES
  let s1 := c0.run FEATURES "add" 2 3
  let s2 := s1.2.run FEATURES "subtract" 7 4
  let s3 := s2.2.run FEATURES "multiply" 3 4
  let s4 := s3.2.run FEATURES "divide" 10 0
  let histCheck :=
    match s4.2.get_history FEATURES with
    | .error .historyDisabled => true
    | _ => false
  approxCheck s1.1 5 && approxCheck s2.1 3 && approxCheck s3.1 12
    && (match s4.1 with | .ok .inf => true | _ => false)
    && histCheck

/-- The `_self_test()` suite of `waterfall_calculator.py`:
`calc.add(5, 3) == 8` and `calc.subtract(5, 3) == 2`. -/
def waterfall_self_test : Bool :=
  decide (calcObj.add 5 3 = 8) && decide (calcObj.subtract 5 3 = 2)

/-- Outcome of a whole `python agile_calculator.py ...` process: aborted
by a failing assertion in `_tests()` before any CLI output, or the tests
passed and the CLI ran. -/
inductive AgileMain where
  | aborted
  | ran (r : AgileCliResult)
deriving DecidableEq, Repr

/-- The `__main__` block of `agile_calculator.py`: `_tests()` first,
unconditionally; `run_cli()` only if no assertion failed. -/
def agile_main (parse : String → Option ℚ) (args : List String) : AgileMain :=
  if agile_tests then .ran (agile_run_cli parse args) else .aborted

/-- Outcome of a whole `python waterfall_calculator.py ...` process:
aborted by a failing assertion in `_self_test()` before any CLI output,
or the tests passed and the CLI ran. -/
inductive WfMain where
  | aborted
  | ran (r : WfCliResult)
deriving DecidableEq, Repr

/-- The `__main__` block of `waterfall_calculator.py`: `_self_test()`
first, unconditionally; `run_cli()` only if no assertion failed. -/
def waterfall_main (parse : String → Option ℚ) (argv : List String) : WfMain :=
  if waterfall_self_test then .ran (waterfall_run_cli parse argv) else .aborted

/-- The `FEATURES` table with the `history` flag toggled on and the four
operation flags as in the source: the configuration under which the
history-recording behavior becomes observable. -/
def FEATURES_HISTORY_ON : Features := { FEATURES with history := true }

/-- C1: for every operation enabled at construction and all finite
operands, `run` returns the mathematically correct result (within the
1e-9 tolerance the tests use; in the exact rational model the result is
in fact exact), except that `divide` with a zero second operand returns
exactly positive infinity. -/
theorem C1_enabled_ops_correct (f fNow : Features) (a b : ℚ) :
    (f.add = true → ∃ r, (((AgileCalculator.init f).run fNow "add" a b).1 = .ok (.fin r) ∧
        |r - (a + b)| ≤ 1 / 1000000000)) ∧
    (f.subtract = true →
      ∃ r, (((AgileCalculator.init f).run fNow "subtract" a b).1 = .ok (.fin r) ∧
        |r - (a - b)| ≤ 1 / 1000000000)) ∧
    (f.multiply = true →
      ∃ r, (((AgileCalculator.init f).run fNow "multiply" a b).1 = .ok (.fin r) ∧
        |r - (a * b)| ≤ 1 / 1000000000)) ∧
    (f.divide = true → b ≠ 0 →
      ∃ r, (((AgileCalculator.init f).run fNow "divide" a b).1 = .ok (.fin r) ∧
        |r - a / b| ≤ 1 / 1000000000)) ∧
    (f.divide = true → b = 0 →
      ((AgileCalculator.init f).run fNow "divide" a b).1 = .ok .inf) := by
  refine ⟨fun h => ⟨a + b, ?_, by norm_num⟩, fun h => ⟨a - b, ?_, by norm_num⟩,
    fun h => ⟨a * b, ?_, by norm_num⟩, fun h hb => ⟨a / b, ?_, by norm_num⟩,
    fun h hb => ?_⟩
  · simp [AgileCalculator.run, lookup_init_add f, h, addFn]
  · simp [AgileCalculator.run, lookup_init_subtract f, h, subFn]
  · simp [AgileCalculator.run, lookup_init_multiply f, h, mulFn]
  · simp [AgileCalculator.run, lookup_init_divide f, h, divFn, hb]
  · simp [AgileCalculator.run, lookup_init_divide f, h, divFn, hb]

/-- Witness for C1 at concrete inputs: with the source's `FEATURES`,
`run("add", 2, 3)` returns a value within 1e-9 of 5, and
`run("divide", 10, 0)` returns positive infinity. -/
theorem C1_enabled_ops_correct_witness :
    (∃ r, (((AgileCalculator.init FEATURES).run FEATURES "add" 2 3).1 = .ok (.fin r) ∧
        |r - ((2 : ℚ) + 3)| ≤ 1 / 1000000000)) ∧
    ((AgileCalculator.init FEATURES).run FEATURES "divide" 10 0).1 = .ok .inf :=
  ⟨(C1_enabled_ops_correct FEATURES FEATURES 2 3).1 rfl,
   (C1_enabled_ops_correct FEATURES FEATURES 10 0).2.2.2.2 rfl rfl⟩

/-- C2 (amended): whether `run` succeeds on each of the four operation
names equals the corresponding flag at construction time, whatever the
flag table says at call time; but the `history` flag is re-read on every
call: whether `get_history` succeeds equals the history flag at call
time, and `run` records history exactly according to the call-time
flag — with the flag false now the call leaves the instance untouched,
with the flag true now every successful call appends its tuple. -/
theorem C2_flags_read_at_construction_except_history (f fNow : Features) (a b : ℚ)
    (c : AgileCalculator) (op : String) :
    (exceptOk (((AgileCalculator.init f).run fNow "add" a b).1) = f.add) ∧
    (exceptOk (((AgileCalculator.init f).run fNow "subtract" a b).1) = f.subtract) ∧
    (exceptOk (((AgileCalculator.init f).run fNow "multiply" a b).1) = f.multiply) ∧
    (exceptOk (((AgileCalculator.init f).run fNow "divide" a b).1) = f.divide) ∧
    (exceptOk (c.get_history fNow) = fNow.history) ∧
    (fNow.history = false → (c.run fNow op a b).2 = c) ∧
    (∀ (r : PyFloat) (c2 : AgileCalculator), fNow.history = true →
        c.run fNow op a b = (.ok r, c2) → c2.history = c.history ++ [(op, a, b, r)]) := by
  refine ⟨?_, ?_, ?_, ?_, ?_, ?_, ?_⟩
  · cases h : f.add <;> simp [AgileCalculator.run, lookup_init_add f, h, exceptOk]
  · cases h : f.subtract <;> simp [AgileCalculator.run, lookup_init_subtract f, h, exceptOk]
  · cases h : f.multiply <;> simp [AgileCalculator.run, lookup_init_multiply f, h, exceptOk]
  · cases h : f.divide <;> simp [AgileCalculator.run, lookup_init_divide f, h, exceptOk]
  · cases h : fNow.history <;> simp [AgileCalculator.get_history, h, exceptOk]
  · intro h
    cases hl : lookupOp c.ops op <;> simp [AgileCalculator.run, hl, h]
  · intro r c2 h h2
    cases hl : lookupOp c.ops op
    · simp [AgileCalculator.run, hl] at h2
    · simp [AgileCalculator.run, hl, h] at h2
      obtain ⟨h3, h4⟩ := h2
      simp [← h4, h3]

/-- Witness for C2 (amended): under the source's `FEATURES` table (the
history flag false at call time), `run("add", 2, 3)` returns the
instance exactly as it was — no history entry is recorded. -/
theorem C2_flags_read_at_construction_except_history_witness :
    ((AgileCalculator.init FEATURES).run FEATURES "add" 2 3).2 =
      AgileCalculator.init FEATURES :=
  (C2_flags_read_at_construction_except_history FEATURES FEATURES 2 3
      (AgileCalculator.init FEATURES) "add").2.2.2.2.2.1 rfl

/-- Counterexample to C2 as stated: on an instance constructed under the
source's `FEATURES` table, changing the `history` entry of the flag table
after construction changes the observable behavior of `get_history`
(it raises `RuntimeError` under the original table and returns `[]` under
the toggled table), so not every feature flag is read only at
construction time. -/
theorem C2_counterexample :
    (AgileCalculator.init FEATURES).get_history FEATURES ≠
      (AgileCalculator.init FEATURES).get_history FEATURES_HISTORY_ON := by
  simp [AgileCalculator.get_history, AgileCalculator.init, FEATURES, FEATURES_HISTORY_ON]

/-- C3: `run` on an operation name absent from the registry returns the
`ValueError` carrying that operation name and leaves the instance state
(history included) exactly as it was. -/
theorem C3_unavailable_error_no_mutation (c : AgileCalculator) (fNow : Features)
    (op : String) (a b : ℚ) (h : lookupOp c.ops op = none) :
    c.run fNow op a b = (.error (.featureUnavailable op), c) := by
  simp [AgileCalculator.run, h]

/-- Witness for C3: `"modulo"` is not in the registry built from the
source's `FEATURES`, and running it returns the `ValueError` carrying
`"modulo"` with the instance unchanged. -/
theorem C3_unavailable_error_no_mutation_witness :
    (AgileCalculator.init FEATURES).run FEATURES "modulo" 1 2 =
      (.error (.featureUnavailable "modulo"), AgileCalculator.init FEATURES) :=
  C3_unavailable_error_no_mutation (AgileCalculator.init FEATURES) FEATURES "modulo" 1 2 rfl

/-- C4: when the history flag is true at call time, every successful
`run` appends exactly one tuple `(op, a, b, result)` at the end of the
history and keeps every existing entry; and concretely, on a fresh
instance under the history-enabled table, `run("add",2,3)` then
`run("subtract",7,4)` make `get_history()` return
`[("add",2,3,5),("subtract",7,4,3)]` in that order. -/
theorem C4_history_append_only :
    (∀ (c : AgileCalculator) (fNow : Features) (op : String) (a b : ℚ)
        (r : PyFloat) (c2 : AgileCalculator),
        fNow.history = true → c.run fNow op a b = (.ok r, c2) →
        c2.history = c.history ++ [(op, a, b, r)]) ∧
    ((((AgileCalculator.init FEATURES_HISTORY_ON).run FEATURES_HISTORY_ON "add" 2 3).2.run
        FEATURES_HISTORY_ON "subtract" 7 4).2.get_history FEATURES_HISTORY_ON =
      .ok [("add", 2, 3, PyFloat.fin 5), ("subtract", 7, 4, PyFloat.fin 3)]) := by
  constructor
  · intro c fNow op a b r c2 h h2
    cases hl : lookupOp c.ops op
    · simp [AgileCalculator.run, hl] at h2
    · simp [AgileCalculator.run, hl, h] at h2
      obtain ⟨h3, h4⟩ := h2
      simp [← h4, h3]
  · simp [AgileCalculator.run, AgileCalculator.init, AgileCalculator.get_history,
      FEATURES_HISTORY_ON, FEATURES, lookupOp, addFn, subFn]
    norm_num

/-- Witness for C4: a single `run("add", 2, 3)` under the
history-enabled table extends the fresh instance's (empty) history by
exactly the tuple `("add", 2, 3, 5)`. -/
theorem C4_history_append_only_witness :
    ((AgileCalculator.init FEATURES_HISTORY_ON).run FEATURES_HISTORY_ON "add" 2 3).2.history =
      (AgileCalculator.init FEATURES_HISTORY_ON).history ++ [("add", 2, 3, PyFloat.fin 5)] :=
  C4_history_append_only.1 (AgileCalculator.init FEATURES_HISTORY_ON) FEATURES_HISTORY_ON
    "add" 2 3 (PyFloat.fin 5)
    ((AgileCalculator.init FEATURES_HISTORY_ON).run FEATURES_HISTORY_ON "add" 2 3).2 rfl
    (by simp [AgileCalculator.run, AgileCalculator.init, FEATURES_HISTORY_ON, FEATURES,
          lookupOp, addFn]
        norm_num)

/-- C5: whenever the history flag is false at call time, `get_history`
raises the `RuntimeError`, whatever the instance state (so regardless of
prior `run` calls); and that error's Python class (`RuntimeError`) is
distinct from the class of the feature-unavailable error (`ValueError`). -/
theorem C5_get_history_disabled (c : AgileCalculator) (fNow : Features) (op : String)
    (h : fNow.history = false) :
    c.get_history fNow = .error .historyDisabled ∧
    AgileError.historyDisabled.pythonClass ≠ (AgileError.featureUnavailable op).pythonClass := by
  refine ⟨by simp [AgileCalculator.get_history, h], ?_⟩
  simp [AgileError.pythonClass]

/-- Witness for C5: under the source's `FEATURES` table (history off),
`get_history` raises `RuntimeError` even after a prior successful
`run("add", 2, 3)` call. -/
theorem C5_get_history_disabled_witness :
    (((AgileCalculator.init FEATURES).run FEATURES "add" 2 3).2).get_history FEATURES =
      .error .historyDisabled ∧
    AgileError.historyDisabled.pythonClass ≠
      (AgileError.featureUnavailable "modulo").pythonClass :=
  C5_get_history_disabled (((AgileCalculator.init FEATURES).run FEATURES "add" 2 3).2)
    FEATURES "modulo" rfl

/-- Counterexample to C6 as stated: invoking the toggleable CLI with the
three arguments `add x 3`, where `x` does not parse as a float, does not
print the usage text and exit 0 — the `float` conversion sits outside
the `try` block, so the process dies with an uncaught `ValueError`. -/
theorem C6_counterexample :
    agile_run_cli (fun s => if s = "3" then some 3 else none) ["add", "x", "3"] =
      .uncaught ∧
    AgileCliResult.uncaught ≠ .printed .usage := by
  exact ⟨by decide, by decide⟩

/-- C6 (amended): the toggleable CLI prints usage on an empty invocation
and on any wrong argument count, prints the friendly message on a
disabled or unknown operation whose operands both parse, prints the
numeric result on an enabled operation whose operands both parse — all
of these returning normally, hence exit code 0 — but a three-argument
invocation in which an operand fails float conversion kills the process
with an uncaught error instead of printing usage. -/
theorem C6_cli_exit_behavior (parse : String → Option ℚ) :
    (agile_run_cli parse [] = .printed .usage) ∧
    (∀ args : List String, args ≠ [] → args.head? ≠ some "backlog" →
        args.head? ≠ some "features" → args.length ≠ 3 →
        agile_run_cli parse args = .printed .usage) ∧
    (∀ (op aStr bStr : String) (a b : ℚ), op ≠ "backlog" → op ≠ "features" →
        parse aStr = some a → parse bStr = some b →
        lookupOp (AgileCalculator.init FEATURES).ops op = none →
        agile_run_cli parse [op, aStr, bStr] = .printed (.notAvailable op)) ∧
    (∀ (op aStr bStr : String) (a b : ℚ) (fn : ℚ → ℚ → PyFloat),
        op ≠ "backlog" → op ≠ "features" →
        parse aStr = some a → parse bStr = some b →
        lookupOp (AgileCalculator.init FEATURES).ops op = some fn →
        agile_run_cli parse [op, aStr, bStr] = .printed (.resultOut (fn a b))) ∧
    (∀ op aStr bStr : String, op ≠ "backlog" → op ≠ "features" →
        (parse aStr = none ∨ parse bStr = none) →
        agile_run_cli parse [op, aStr, bStr] = .uncaught) := by
  refine ⟨rfl, ?_, ?_, ?_, ?_⟩
  · intro args hne hb hf hlen
    rcases args with _ | ⟨a0, _ | ⟨x, _ | ⟨y, _ | ⟨z, t⟩⟩⟩⟩
    · exact absurd rfl hne
    · simp only [List.head?, ne_eq, Option.some.injEq] at hb hf
      simp [agile_run_cli, hb, hf]
    · simp only [List.head?, ne_eq, Option.some.injEq] at hb hf
      simp [agile_run_cli, hb, hf]
    · simp at hlen
    · simp only [List.head?, ne_eq, Option.some.injEq] at hb hf
      simp [agile_run_cli, hb, hf]
  · intro op aStr bStr a b hb hf hpa hpb hl
    simp [agile_run_cli, hb, hf, hpa, hpb, AgileCalculator.run, hl]
  · intro op aStr bStr a b fn hb hf hpa hpb hl
    simp [agile_run_cli, hb, hf, hpa, hpb, AgileCalculator.run, hl]
  · intro op aStr bStr hb hf hp
    rcases hp with hp | hp
    · cases hpb : parse bStr <;> simp [agile_run_cli, hb, hf, hp, hpb]
    · cases hpa : parse aStr <;> simp [agile_run_cli, hb, hf, hp, hpa]

/-- Witness for C6 (amended): with a parser accepting `2` and `3`, the
invocation `modulo 2 3` prints the friendly not-available message (and
the process exits 0). -/
theorem C6_cli_exit_behavior_witness :
    agile_run_cli (fun s => if s = "2" then some 2 else if s = "3" then some 3 else none)
      ["modulo", "2", "3"] = .printed (.notAvailable "modulo") :=
  (C6_cli_exit_behavior
      (fun s => if s = "2" then some 2 else if s = "3" then some 3 else none)).2.2.1
    "modulo" "2" "3" 2 3 (by decide) (by decide) rfl rfl rfl

/-- Counterexample to C7 as stated: the fixed CLI given the three
arguments `multiply x y`, whose operands do not parse as floats, does
not print the rejection message and exit 2 — the operands are converted
before the operation name is checked, so the process dies with an
uncaught conversion error. -/
theorem C7_counterexample :
    waterfall_run_cli (fun _ => none) ["waterfall_calculator.py", "multiply", "x", "y"] =
      .uncaught ∧
    WfCliResult.uncaught ≠ .exited 2 .rejection := by
  exact ⟨by decide, by decide⟩

/-- C7 (amended): any argument count other than 3 prints the usage
message and exits 1; when the count is 3 and both operands parse as
floats, a name other than `add`/`subtract` prints the rejection and
exits 2, while `add`/`subtract` print the numeric result and exit 0;
a count-3 invocation whose operands do not both parse dies with an
uncaught conversion error instead (see C10). -/
theorem C7_fixed_cli_exit_codes (parse : String → Option ℚ) :
    (∀ argv : List String, argv.length ≠ 4 →
        waterfall_run_cli parse argv = .exited 1 .usage) ∧
    (∀ (prog op aStr bStr : String) (a b : ℚ),
        parse aStr = some a → parse bStr = some b → op ≠ "add" → op ≠ "subtract" →
        waterfall_run_cli parse [prog, op, aStr, bStr] = .exited 2 .rejection) ∧
    (∀ (prog aStr bStr : String) (a b : ℚ),
        parse aStr = some a → parse bStr = some b →
        waterfall_run_cli parse [prog, "add", aStr, bStr] = .exited 0 (.resultOut (a + b))) ∧
    (∀ (prog aStr bStr : String) (a b : ℚ),
        parse aStr = some a → parse bStr = some b →
        waterfall_run_cli parse [prog, "subtract", aStr, bStr] =
          .exited 0 (.resultOut (a - b))) := by
  refine ⟨?_, ?_, ?_, ?_⟩
  · intro argv hlen
    rcases argv with _ | ⟨p, _ | ⟨o, _ | ⟨x, _ | ⟨y, _ | ⟨z, t⟩⟩⟩⟩⟩ <;>
      simp_all [waterfall_run_cli]
  · intro prog op aStr bStr a b hpa hpb ha hs
    simp [waterfall_run_cli, hpa, hpb, ha, hs]
  · intro prog aStr bStr a b hpa hpb
    simp [waterfall_run_cli, hpa, hpb, Calculator.add]
  · intro prog aStr bStr a b hpa hpb
    simp [waterfall_run_cli, hpa, hpb, Calculator.subtract]

/-- Witness for C7 (amended): one argument exits 1 with usage, and
`multiply 2 3` with parseable operands exits 2 with the rejection. -/
theorem C7_fixed_cli_exit_codes_witness :
    waterfall_run_cli (fun _ => some 0) ["waterfall_calculator.py"] = .exited 1 .usage ∧
    waterfall_run_cli (fun _ => some 0) ["waterfall_calculator.py", "multiply", "2", "3"] =
      .exited 2 .rejection :=
  ⟨(C7_fixed_cli_exit_codes (fun _ => some 0)).1 ["waterfall_calculator.py"] (by decide),
   (C7_fixed_cli_exit_codes (fun _ => some 0)).2.1 "waterfall_calculator.py" "multiply"
     "2" "3" 0 0 rfl rfl (by decide) (by decide)⟩

/-- C8: the fixed calculator's `add` returns the exact sum and
`subtract` the exact difference; in particular `calc.add(5,3)` is
exactly 8 and `calc.subtract(5,3)` is exactly 2. -/
theorem C8_fixed_calculator_exact (c : Calculator) (a b : ℚ) :
    c.add a b = a + b ∧ c.subtract a b = a - b ∧
    calcObj.add 5 3 = 8 ∧ calcObj.subtract 5 3 = 2 := by
  refine ⟨rfl, rfl, ?_, ?_⟩ <;> norm_num [Calculator.add, Calculator.subtract]

/-- C9: both self-test suites pass (every assertion holds), and since
each `__main__` block runs its tests before the CLI and only a passing
suite reaches the CLI, every startup of either program runs its CLI
after the tests. -/
theorem C9_self_tests_pass :
    agile_tests = true ∧ waterfall_self_test = true ∧
    (∀ (parse : String → Option ℚ) (args : List String),
        agile_main parse args = .ran (agile_run_cli parse args)) ∧
    (∀ (parse : String → Option ℚ) (argv : List String),
        waterfall_main parse argv = .ran (waterfall_run_cli parse argv)) := by
  have ha : agile_tests = true := by
    simp [agile_tests, AgileCalculator.run, AgileCalculator.init, AgileCalculator.get_history,
      FEATURES, lookupOp, addFn, subFn, mulFn, divFn, approxCheck]
    norm_num
  have hw : waterfall_self_test = true := by
    simp [waterfall_self_test, Calculator.add, Calculator.subtract]
    norm_num
  exact ⟨ha, hw, fun parse args => by simp [agile_main, ha],
    fun parse argv => by simp [waterfall_main, hw]⟩

/-- C10: the fixed CLI converts both operand strings before validating
the operation name, so every three-argument invocation in which an
operand fails float conversion dies with an uncaught conversion error —
whatever the operation name, even an unsupported one. -/
theorem C10_convert_before_validate (parse : String → Option ℚ)
    (prog op aStr bStr : String) (h : parse aStr = none ∨ parse bStr = none) :
    waterfall_run_cli parse [prog, op, aStr, bStr] = .uncaught := by
  rcases h with h | h
  · cases hb : parse bStr <;> simp [waterfall_run_cli, h, hb]
  · cases ha : parse aStr <;> simp [waterfall_run_cli, h, ha]

/-- Witness for C10: with a parser rejecting everything, the unsupported
invocation `multiply 2 3` dies with the uncaught conversion error. -/
theorem C10_convert_before_validate_witness :
    waterfall_run_cli (fun _ => none) ["waterfall_calculator.py", "multiply", "2", "3"] =
      .uncaught :=
  C10_convert_before_validate (fun _ => none) "waterfall_calculator.py" "multiply" "2" "3"
    (Or.inl rfl)
